import Mathlib

/-!
Verification of the job-advert schema collection app (`app.py`, `password_gate.py`).

The app is a stateful form-filling workflow:
  * a fixed ten-field target schema (`TARGET_SCHEMA`, app.py lines 43-54),
  * session state holding the current record, the pending (missing) field
    queue, the current wizard field, an extraction flag and a detected-source
    label (app.py lines 57-70),
  * an extraction step that calls an external model and parses its JSON
    output (`call_openai_structurer`, app.py lines 181-233),
  * a wizard that elicits missing fields one at a time (app.py lines 317-373),
  * a bulk-edit form (app.py lines 377-412),
  * a password gate (`require_password`, password_gate.py).

External collaborators (the OpenAI API, Python's `json.loads`, and
`hashlib.sha256`) are modelled as explicit parameters; everything else is a
direct translation of the Python source.  Python values that can appear in a
record after `json.loads` are modelled by `JsonValue`; Python truthiness and
`str()` rendering are modelled by `pyTruthy` and `pyStr`.
-/

/-- A JSON value as produced by Python's `json.loads`.  JSON floats are
elided (no claim involves them); integers use `num`. -/
inductive JsonValue where
  | str (s : String)
  | num (n : Int)
  | bool (b : Bool)
  | null
  | arr (elems : List JsonValue)
  | obj (fields : List (String × JsonValue))
  deriving Repr

/-- Python truthiness (`bool(v)`) of a JSON value: empty string, zero,
`False`, `None`, empty list and empty dict are falsy. -/
def pyTruthy : JsonValue → Bool
  | .str s => !s.isEmpty
  | .num n => n != 0
  | .bool b => b
  | .null => false
  | .arr elems => !elems.isEmpty
  | .obj fields => !fields.isEmpty

mutual

/-- Python `repr()` of a JSON value (quote-escaping inside string reprs is
elided; it never affects whether the result is whitespace-only, which is the
only property of `repr` the code under verification depends on). -/
def pyRepr : JsonValue → String
  | .str s => "'" ++ s ++ "'"
  | .num n => toString n
  | .bool b => if b then "True" else "False"
  | .null => "None"
  | .arr elems => "[" ++ pyReprElems elems ++ "]"
  | .obj fields => "\x7b" ++ pyReprFields fields ++ "\x7d"

/-- Comma-separated reprs of the elements of a Python list. -/
def pyReprElems : List JsonValue → String
  | [] => ""
  | [v] => pyRepr v
  | v :: rest => pyRepr v ++ ", " ++ pyReprElems rest

/-- Comma-separated reprs of the entries of a Python dict. -/
def pyReprFields : List (String × JsonValue) → String
  | [] => ""
  | [(k, v)] => "'" ++ k ++ "': " ++ pyRepr v
  | (k, v) :: rest => "'" ++ k ++ "': " ++ pyRepr v ++ ", " ++ pyReprFields rest

end

/-- Python `str()` of a JSON value: a string renders as itself, anything else
as its repr. -/
def pyStr : JsonValue → String
  | .str s => s
  | v => pyRepr v

/-- `isinstance(v, dict)`. -/
def JsonValue.isObj : JsonValue → Bool
  | .obj _ => true
  | _ => false

/-- A record: an insertion-ordered Python dict from field names to values. -/
abbrev Record := List (String × JsonValue)

/-- The key list of a record, in insertion order (`dict.keys()`). -/
def keysOf (r : Record) : List String :=
  r.map Prod.fst

/-- Python dict lookup `r[k]` (as an Option): the value at the first entry
with key `k`. -/
def dictGet : Record → String → Option JsonValue
  | [], _ => none
  | (k', v) :: rest, k => if k' = k then some v else dictGet rest k

/-- Python dict assignment `r[k] = v`: replaces the value at an existing key
in place (keeping its position), appends a new entry otherwise. -/
def dictSet : Record → String → JsonValue → Record
  | [], k, v => [(k, v)]
  | (k', v') :: rest, k, v =>
      if k' = k then (k, v) :: rest else (k', v') :: dictSet rest k v

/-- `TARGET_SCHEMA` (app.py lines 43-54): the ten fields, all empty. -/
def TARGET_SCHEMA : Record :=
  [("job_title", .str ""),
   ("department", .str ""),
   ("location", .str ""),
   ("salary", .str ""),
   ("grade", .str ""),
   ("closing_date", .str ""),
   ("summary", .str ""),
   ("responsibilities", .str ""),
   ("essential_criteria", .str ""),
   ("desirable_criteria", .str "")]

/-- Python `s.strip(chars)`: drop leading and trailing characters belonging
to `chars`. -/
def pyStripChars (s : String) (chars : List Char) : String :=
  String.mk
    (((s.toList.dropWhile (fun c => chars.contains c)).reverse.dropWhile
      (fun c => chars.contains c)).reverse)

/-- Python `s.strip()` with no argument: drop leading and trailing
whitespace (modelled with `Char.isWhitespace`, which covers the ASCII
whitespace appearing in this app's data). -/
def pyStripWS (s : String) : String :=
  String.mk
    (((s.toList.dropWhile Char.isWhitespace).reverse.dropWhile
      Char.isWhitespace).reverse)

/-- `get_missing_fields` (app.py lines 236-237):
`[k for k, v in current_schema.items() if not v or not str(v).strip()]`. -/
def get_missing_fields (current_schema : Record) : List String :=
  (current_schema.filter
    (fun kv => !pyTruthy kv.2 || (pyStripWS (pyStr kv.2)).isEmpty)).map Prod.fst

/-- The character set of `raw_json.strip("` \n")` in app.py line 229. -/
def backtickStripSet : List Char := ['`', ' ', '\n']

/-- Outcome of the external OpenAI chat-completion call (app.py lines
195-216): either the call raised (network/auth/quota error), or a response
was received and `resp.choices[0].message.content` (falling back to
`str(resp.choices[0].message)`) yielded the given text. -/
inductive ApiOutcome where
  | apiError
  | response (content : String)
  deriving Repr, DecidableEq

/-- `call_openai_structurer` (app.py lines 181-233).  `json_loads` is
Python's `json.loads`, passed as an explicit parameter (`none` = the parse
raised).  On an API error the function returns the `schema` argument; on a
response it strips the content, treats an empty result via the
`json.dumps(resp)` fallback (which raises `TypeError` on the client's
response object, so that path also returns the schema), attempts a strict
parse, retries once after `strip("` \n")`, and falls back to the schema. -/
def call_openai_structurer (json_loads : String → Option JsonValue)
    (outcome : ApiOutcome) (schema : Record) : JsonValue :=
  match outcome with
  | .apiError => .obj schema
  | .response content =>
      let raw_json := pyStripWS content
      if raw_json.isEmpty then .obj schema
      else
        match json_loads raw_json with
        | some parsed => parsed
        | none =>
            let cleaned := pyStripChars raw_json backtickStripSet
            match json_loads cleaned with
            | some parsed => parsed
            | none => .obj schema

/-- Session state (app.py lines 57-70). -/
structure Session where
  schema : Record
  pending_fields : List String
  current_field : Option String
  extracted : Bool
  detected_source : Option String
  deriving Repr

/-- The freshly initialised session (app.py lines 57-70): an all-empty copy
of the target schema, every key pending, no current field, not yet
extracted. -/
def initialSession : Session :=
  { schema := TARGET_SCHEMA
    pending_fields := keysOf TARGET_SCHEMA
    current_field := none
    extracted := false
    detected_source := none }

/-- Messages surfaced by the tab-2 extraction handler. -/
inductive ExtractMsg where
  | noSourceWarning
  | extractedSomeMissing
  | extractedAllFields
  | failedError
  deriving Repr, DecidableEq

/-- The tab-2 "Extract from source" handler (app.py lines 275-309), after
the source text and detected-source label have been computed from tab 1.
If the source text is empty it warns and changes nothing; otherwise it runs
the structurer on `TARGET_SCHEMA`, and stores the result only when it is a
dict (`isinstance(extracted, dict)`), updating all five session variables;
a non-dict result reports an error and changes nothing. -/
def extractHandler (json_loads : String → Option JsonValue)
    (outcome : ApiOutcome) (source_text : String)
    (detected : Option String) (s : Session) : Session × ExtractMsg :=
  if source_text.isEmpty then (s, .noSourceWarning)
  else
    match call_openai_structurer json_loads outcome TARGET_SCHEMA with
    | .obj extracted =>
        let missing_fields := get_missing_fields extracted
        ({ schema := extracted
           pending_fields := missing_fields
           current_field := none
           extracted := true
           detected_source := detected },
         if missing_fields.isEmpty then .extractedAllFields
         else .extractedSomeMissing)
    | _ => (s, .failedError)

/-- The tab-3 wizard gate `pending and any(schema.values())`
(app.py line 333). -/
def wizard_gate (s : Session) : Bool :=
  !s.pending_fields.isEmpty && s.schema.any (fun kv => pyTruthy kv.2)

/-- What tab 3 displays (app.py lines 323-373). -/
inductive Tab3View where
  | runExtractFirst
  | wizard (field : String)
  | allComplete
  | noObviousMissing
  deriving Repr, DecidableEq

/-- Rendering tab 3 (app.py lines 323-373): before extraction, an info
message; when the wizard gate passes, the current field is set to the head
of the queue if unset and the wizard shows that field; otherwise an
"all complete" or "no more obvious missing fields" message depending on
`all(schema.values())`.  Returns the (possibly updated) session together
with the view. -/
def renderTab3 (s : Session) : Session × Tab3View :=
  if !s.extracted then (s, .runExtractFirst)
  else if wizard_gate s then
    let s' :=
      match s.current_field with
      | none => { s with current_field := s.pending_fields.head? }
      | some _ => s
    (s', .wizard (s'.current_field.getD ""))
  else if s.schema.all (fun kv => pyTruthy kv.2) then (s, .allComplete)
  else (s, .noObviousMissing)

/-- Validation for `closing_date` (app.py line 357):
`re.match(r"^\d{4}-\d{2}-\d{2}$", answer)`.  Modelled as a full match of
exactly ten characters (re.match anchors at the start and the pattern's `$`
closes the end; `$` would also accept one trailing newline, which is
unreachable here because the handler strips its input first).  `\d` is
modelled as an ASCII digit. -/
def closing_date_ok (s : String) : Bool :=
  match s.toList with
  | [a, b, c, d, e, f, g, h, i, j] =>
      a.isDigit && b.isDigit && c.isDigit && d.isDigit && e == '-' &&
      f.isDigit && g.isDigit && h == '-' && i.isDigit && j.isDigit
  | _ => false

/-- Outcome of the "Save this field" handler. -/
inductive SaveOutcome where
  | saved
  | formatError
  deriving Repr, DecidableEq

/-- The "Save this field" handler (app.py lines 351-368).  `field` is the
session's current field, `user_input` the text box content.  The input is
stripped; a non-empty closing-date answer must match the date pattern (on
failure only a warning is shown and nothing changes); every other case —
including an empty answer for any field — writes the stripped answer into
the record, removes the field from the pending queue and clears the current
field. -/
def saveField (s : Session) (field : String) (user_input : String) :
    Session × SaveOutcome :=
  let answer := pyStripWS user_input
  if field = "closing_date" ∧ ¬answer.isEmpty then
    if !closing_date_ok answer then (s, .formatError)
    else
      ({ s with schema := dictSet s.schema field (.str answer)
                pending_fields := s.pending_fields.filter (fun f => f != field)
                current_field := none },
       .saved)
  else
    ({ s with schema := dictSet s.schema field (.str answer)
              pending_fields := s.pending_fields.filter (fun f => f != field)
              current_field := none },
     .saved)

/-- The ten text inputs of the full edit form (app.py lines 378-387). -/
structure FormValues where
  job_title : String
  department : String
  location : String
  salary : String
  grade : String
  closing_date : String
  summary : String
  responsibilities : String
  essential_criteria : String
  desirable_criteria : String
  deriving Repr, DecidableEq

/-- The record built from the form values (app.py lines 393-404). -/
def updatedSchema (fv : FormValues) : Record :=
  [("job_title", .str fv.job_title),
   ("department", .str fv.department),
   ("location", .str fv.location),
   ("salary", .str fv.salary),
   ("grade", .str fv.grade),
   ("closing_date", .str fv.closing_date),
   ("summary", .str fv.summary),
   ("responsibilities", .str fv.responsibilities),
   ("essential_criteria", .str fv.essential_criteria),
   ("desirable_criteria", .str fv.desirable_criteria)]

/-- The "Save all" bulk-edit handler (app.py lines 391-412): replaces the
whole record with the form values, recomputes the pending queue with the
inlined copy of the `get_missing_fields` comprehension
(`[k for k, v in updated_schema.items() if not v or not str(v).strip()]`,
lines 407-409), and clears the current field.  No per-field validation. -/
def bulkEdit (s : Session) (fv : FormValues) : Session :=
  { s with
    schema := updatedSchema fv
    pending_fields :=
      ((updatedSchema fv).filter
        (fun kv => !pyTruthy kv.2 || (pyStripWS (pyStr kv.2)).isEmpty)).map Prod.fst
    current_field := none }

/-- Errors surfaced by the password gate. -/
inductive GateError where
  | noConfig
  | incorrect
  deriving Repr, DecidableEq

/-- What the gate lets happen: either the rest of the app runs, or the
prompt is (re)shown — with an error message when a submission failed — and
`st.stop()` blocks everything downstream. -/
inductive GateView where
  | proceed
  | prompt (err : Option GateError)
  deriving Repr, DecidableEq

/-- An interaction with the gate: a plain render, or the Unlock button
pressed with the given password in the box. -/
inductive GateEvent where
  | render
  | unlock (pw : String)
  deriving Repr, DecidableEq

/-- `require_password` (password_gate.py lines 4-20).  `sha256_hex` is
`lambda pw: hashlib.sha256(pw.encode()).hexdigest()`, passed as an explicit
parameter; `PW_HASH` is the configured hash from the environment; `auth` is
`st.session_state.authenticated` (initially false).  When already
authenticated the function falls through and the app runs.  Otherwise an
Unlock press with no configured hash errors; a press whose digest matches
under `hmac.compare_digest` (functionally: string equality, performed in
constant time) sets the flag and reruns, after which the gate falls
through; a mismatch errors; in every unauthenticated non-matching case
`st.stop()` keeps the rest of the app blocked. -/
def require_password (sha256_hex : String → String) (PW_HASH : String)
    (auth : Bool) (ev : GateEvent) : Bool × GateView :=
  if auth then (true, .proceed)
  else
    match ev with
    | .render => (false, .prompt none)
    | .unlock pw =>
        if PW_HASH.isEmpty then (false, .prompt (some .noConfig))
        else if sha256_hex pw = PW_HASH then (true, .proceed)
        else (false, .prompt (some .incorrect))

/-! ### Helper lemmas about the dict operations -/

/-- `isStr` recognises string values. -/
def JsonValue.isStr : JsonValue → Bool
  | .str _ => true
  | _ => false

/-- The claim-side characterisation of the missing-field computation,
written from the spec's words: the fields whose value is empty after
whitespace trimming (via Python's `str()` rendering), in record order. -/
def trimmedEmptyFields (r : Record) : List String :=
  (r.filter (fun kv => (pyStripWS (pyStr kv.2)).isEmpty)).map Prod.fst

theorem dictSet_keysOf {r : Record} {k : String} (v : JsonValue)
    (h : k ∈ keysOf r) : keysOf (dictSet r k v) = keysOf r := by
  induction r with
  | nil => simp [keysOf] at h
  | cons kv rest ih =>
      obtain ⟨k', v'⟩ := kv
      by_cases hk : k' = k
      · simp [dictSet, hk, keysOf]
      · simp only [keysOf, List.map_cons, List.mem_cons] at h
        rcases h with h | h
        · exact absurd h.symm hk
        · have hrest := ih h
          simp only [keysOf] at hrest
          simp [dictSet, hk, keysOf, hrest]

theorem dictGet_dictSet_self (r : Record) (k : String) (v : JsonValue) :
    dictGet (dictSet r k v) k = some v := by
  induction r with
  | nil => simp [dictSet, dictGet]
  | cons kv rest ih =>
      obtain ⟨k', v'⟩ := kv
      by_cases hk : k' = k
      · simp [dictSet, hk, dictGet]
      · simp [dictSet, hk, dictGet, ih]

theorem dictGet_dictSet_ne (r : Record) {k k' : String} (v : JsonValue)
    (h : k' ≠ k) : dictGet (dictSet r k v) k' = dictGet r k' := by
  induction r with
  | nil => simp [dictSet, dictGet, Ne.symm h]
  | cons kv rest ih =>
      obtain ⟨k'', v''⟩ := kv
      by_cases hk : k'' = k
      · simp [dictSet, hk, dictGet, Ne.symm h]
      · simp [dictSet, hk, dictGet, ih]

theorem any_truthy_of_dictGet {r : Record} {k : String} {v : JsonValue}
    (h : dictGet r k = some v) (hv : pyTruthy v = true) :
    r.any (fun kv => pyTruthy kv.2) = true := by
  induction r with
  | nil => simp [dictGet] at h
  | cons kv rest ih =>
      obtain ⟨k', v'⟩ := kv
      by_cases hk : k' = k
      · simp only [dictGet, if_pos hk, Option.some_inj] at h
        simp [List.any_cons, h ▸ hv]
      · simp only [dictGet, if_neg hk] at h
        simp [List.any_cons, ih h]

/-- On a string value, the code's missing test (`not v or not str(v).strip()`)
coincides with the spec's "empty after whitespace trimming". -/
theorem str_missing_eq (t : String) :
    (!pyTruthy (JsonValue.str t) || (pyStripWS (pyStr (JsonValue.str t))).isEmpty)
      = (pyStripWS t).isEmpty := by
  simp only [pyTruthy, pyStr, Bool.not_not]
  cases hE : t.isEmpty
  · simp [hE]
  · have ht : t = "" := (String.isEmpty_iff t).mp hE
    subst ht
    decide

theorem filter_self_idem {α : Type} (p : α → Bool) (l : List α) :
    (l.filter p).filter p = l.filter p := by
  induction l with
  | nil => rfl
  | cons a l ih => by_cases h : p a <;> simp [List.filter_cons, h, ih]

/-! ### Concrete sessions and external-collaborator instances used in
closed theorems -/

/-- A `json.loads` that raises on every input (no response parses). -/
def jlNone : String → Option JsonValue := fun _ => none

/-- `json.loads` on the string `[1]`: a JSON array, not an object. -/
def jlArray : String → Option JsonValue :=
  fun s => if s = "[1]" then some (JsonValue.arr [JsonValue.num 1]) else none

/-- `json.loads` on a model response that is a JSON object whose key set
differs from the target schema's (here the model returned only one key). -/
def jlPartial : String → Option JsonValue :=
  fun s =>
    if s = "\x7b\"job_title\": \"Analyst\"\x7d" then
      some (JsonValue.obj [("job_title", JsonValue.str "Analyst")])
    else none

/-- A session sitting in the wizard with `job_title` filled and the cursor
on `department` (the queue's first element). -/
def sessionAwaitingDepartment : Session :=
  { schema := dictSet TARGET_SCHEMA "job_title" (JsonValue.str "Trainee Analyst")
    pending_fields := ["department", "location", "salary", "grade", "closing_date",
                       "summary", "responsibilities", "essential_criteria",
                       "desirable_criteria"]
    current_field := some "department"
    extracted := true
    detected_source := some "pasted text" }

/-- A session sitting in the wizard with the cursor on `closing_date`. -/
def sessionAwaitingClosingDate : Session :=
  { schema := dictSet TARGET_SCHEMA "job_title" (JsonValue.str "Policy Adviser")
    pending_fields := ["closing_date", "summary"]
    current_field := some "closing_date"
    extracted := true
    detected_source := some "pasted text" }

/-! ### C2 — the missing-field computation -/

/-- C2 (counterexample): on the record `{"salary": 0}` — a value
`json.loads` can produce — `get_missing_fields` returns `["salary"]`
although the trimmed rendering of `0` is `"0"`, which is not empty, so the
claimed characterisation "exactly the fields whose value is empty after
whitespace trimming" fails. -/
theorem get_missing_fields_not_trimmed_empty :
    get_missing_fields [("salary", JsonValue.num 0)] = ["salary"]
    ∧ trimmedEmptyFields [("salary", JsonValue.num 0)] = []
    ∧ pyStripWS (pyStr (JsonValue.num 0)) = "0" :=
  ⟨rfl, rfl, by decide⟩

/-- C2 (amended): on records whose values are all strings — every record the
app itself builds — `get_missing_fields` returns exactly the fields whose
value is empty after whitespace trimming, in record order; in general it
returns the fields whose value is Python-falsy or renders to whitespace, and
recomputing it on the already-missing entries yields the same list
(idempotent recomputation). -/
theorem get_missing_fields_characterised :
    (∀ r : Record, (∀ kv ∈ r, kv.2.isStr = true) →
        get_missing_fields r = trimmedEmptyFields r)
    ∧ (∀ r : Record,
        get_missing_fields (r.filter
          (fun kv => !pyTruthy kv.2 || (pyStripWS (pyStr kv.2)).isEmpty))
          = get_missing_fields r) := by
  constructor
  · intro r hr
    unfold get_missing_fields trimmedEmptyFields
    refine congrArg (List.map Prod.fst) (List.filter_congr ?_)
    intro kv hkv
    have hstr := hr kv hkv
    obtain ⟨k, v⟩ := kv
    cases v with
    | str t => exact str_missing_eq t
    | num n => simp [JsonValue.isStr] at hstr
    | bool b => simp [JsonValue.isStr] at hstr
    | null => simp [JsonValue.isStr] at hstr
    | arr elems => simp [JsonValue.isStr] at hstr
    | obj fields => simp [JsonValue.isStr] at hstr
  · intro r
    unfold get_missing_fields
    rw [filter_self_idem]

/-- Witness for C2's amended theorem at concrete inputs. -/
theorem get_missing_fields_characterised_witness :
    get_missing_fields [("a", JsonValue.str " "), ("b", JsonValue.str "x")]
      = trimmedEmptyFields [("a", JsonValue.str " "), ("b", JsonValue.str "x")]
    ∧ get_missing_fields (TARGET_SCHEMA.filter
        (fun kv => !pyTruthy kv.2 || (pyStripWS (pyStr kv.2)).isEmpty))
        = get_missing_fields TARGET_SCHEMA :=
  ⟨get_missing_fields_characterised.1 _ (by decide),
   get_missing_fields_characterised.2 TARGET_SCHEMA⟩

/-! ### C3 — extractor failure round-trip -/

/-- C3: if the external call raises, or its response fails the strict parse
and the one retry after stripping surrounding backticks/whitespace, the
structurer returns the original unfilled schema unchanged. -/
theorem structurer_failure_returns_schema
    (json_loads : String → Option JsonValue) (schema : Record) (content : String)
    (h1 : json_loads (pyStripWS content) = none)
    (h2 : json_loads (pyStripChars (pyStripWS content) backtickStripSet) = none) :
    call_openai_structurer json_loads .apiError schema = .obj schema
    ∧ call_openai_structurer json_loads (.response content) schema = .obj schema := by
  refine ⟨rfl, ?_⟩
  unfold call_openai_structurer
  by_cases hE : (pyStripWS content).isEmpty
  · simp [hE]
  · simp [hE, h1, h2]

/-- Witness for C3 at a concrete unparsable response. -/
theorem structurer_failure_returns_schema_witness :
    call_openai_structurer jlNone .apiError TARGET_SCHEMA = .obj TARGET_SCHEMA
    ∧ call_openai_structurer jlNone
        (.response "```I could not produce JSON```") TARGET_SCHEMA
        = .obj TARGET_SCHEMA :=
  structurer_failure_returns_schema jlNone TARGET_SCHEMA
    "```I could not produce JSON```" rfl rfl

/-! ### C6 — invalid closing-date submission -/

/-- C6: with the cursor on `closing_date`, a non-empty submission that does
not match the `dddd-dd-dd` pattern surfaces the format error and mutates
nothing: record, queue and cursor are exactly as before. -/
theorem invalid_closing_date_unchanged (s : Session) (user_input : String)
    (_hcur : s.current_field = some "closing_date")
    (hne : (pyStripWS user_input).isEmpty = false)
    (hbad : closing_date_ok (pyStripWS user_input) = false) :
    saveField s "closing_date" user_input = (s, SaveOutcome.formatError) := by
  unfold saveField
  simp [hne, hbad]

/-- Witness for C6: submitting `07/11/2025` for the closing date. -/
theorem invalid_closing_date_unchanged_witness :
    saveField sessionAwaitingClosingDate "closing_date" "07/11/2025"
      = (sessionAwaitingClosingDate, SaveOutcome.formatError) :=
  invalid_closing_date_unchanged sessionAwaitingClosingDate "07/11/2025"
    rfl (by decide) (by decide)

/-! ### C9 — the password gate -/

/-- A stand-in for `hashlib.sha256(...).hexdigest()` at concrete inputs:
maps the demo password to its configured digest and everything else
elsewhere. -/
def demoDigest : String → String :=
  fun pw => if pw = "letmein" then "2af9b1ba42dc5eb01743e6b3759b6e4b" else "0"

/-- C9: the gate authenticates on an Unlock press iff the configured hash is
non-empty and the digest of the submitted password equals it (the comparison
runs through `hmac.compare_digest`, i.e. constant-time string equality);
with no configured hash or a mismatch the session stays unauthenticated and
the matching error is shown; downstream code runs exactly when the session
is authenticated; once authenticated, every later interaction proceeds. -/
theorem require_password_contract (sha256_hex : String → String)
    (PW_HASH : String) (auth : Bool) (pw : String) :
    ((require_password sha256_hex PW_HASH auth (.unlock pw)).1 = true
        ↔ (auth = true ∨ (PW_HASH ≠ "" ∧ sha256_hex pw = PW_HASH)))
    ∧ (auth = false → PW_HASH = "" →
        require_password sha256_hex PW_HASH auth (.unlock pw)
          = (false, .prompt (some .noConfig)))
    ∧ (auth = false → PW_HASH ≠ "" → sha256_hex pw ≠ PW_HASH →
        require_password sha256_hex PW_HASH auth (.unlock pw)
          = (false, .prompt (some .incorrect)))
    ∧ (∀ ev : GateEvent, auth = true →
        require_password sha256_hex PW_HASH auth ev = (true, .proceed))
    ∧ (∀ ev : GateEvent,
        ((require_password sha256_hex PW_HASH auth ev).2 = GateView.proceed
          ↔ (require_password sha256_hex PW_HASH auth ev).1 = true)) := by
  refine ⟨?_, ?_, ?_, ?_, ?_⟩
  · cases auth
    · unfold require_password
      by_cases hE : PW_HASH.isEmpty
      · have h0 : PW_HASH = "" := (String.isEmpty_iff PW_HASH).mp hE
        have hne : ¬(PW_HASH ≠ "") := fun hc => hc h0
        simp [hE, hne]
      · have h0 : PW_HASH ≠ "" := fun hc => hE (hc ▸ rfl)
        by_cases hM : sha256_hex pw = PW_HASH
        · simp [hE, hM, h0]
        · simp [hE, hM, h0]
    · simp [require_password]
  · intro ha h0
    subst ha
    subst h0
    rfl
  · intro ha h0 hM
    subst ha
    have hE : PW_HASH.isEmpty = false := by
      cases hPE : PW_HASH.isEmpty
      · rfl
      · exact absurd ((String.isEmpty_iff PW_HASH).mp hPE) h0
    simp [require_password, hE, hM]
  · intro ev ha
    subst ha
    simp [require_password]
  · intro ev
    cases auth
    · cases ev with
      | render => simp [require_password]
      | unlock pw' =>
          unfold require_password
          by_cases hE : PW_HASH.isEmpty
          · simp [hE]
          · by_cases hM : sha256_hex pw' = PW_HASH
            · simp [hE, hM]
            · simp [hE, hM]
    · simp [require_password]

/-- Witness for C9 at concrete hashes and passwords. -/
theorem require_password_contract_witness :
    (require_password demoDigest "2af9b1ba42dc5eb01743e6b3759b6e4b" false
        (.unlock "letmein")).1 = true
    ∧ require_password demoDigest "" false (.unlock "letmein")
        = (false, .prompt (some .noConfig))
    ∧ require_password demoDigest "2af9b1ba42dc5eb01743e6b3759b6e4b" false
        (.unlock "guess")
        = (false, .prompt (some .incorrect))
    ∧ require_password demoDigest "2af9b1ba42dc5eb01743e6b3759b6e4b" true
        .render = (true, .proceed) :=
  ⟨(require_password_contract demoDigest "2af9b1ba42dc5eb01743e6b3759b6e4b"
      false "letmein").1.mpr (Or.inr ⟨by decide, by decide⟩),
   (require_password_contract demoDigest "" false "letmein").2.1 rfl rfl,
   (require_password_contract demoDigest "2af9b1ba42dc5eb01743e6b3759b6e4b"
      false "guess").2.2.1 rfl (by decide) (by decide),
   (require_password_contract demoDigest "2af9b1ba42dc5eb01743e6b3759b6e4b"
      true "x").2.2.2.1 .render rfl⟩

/-! ### C10 — non-object extraction response -/

/-- C10: when the model's response parses to a JSON value that is not an
object, the extraction handler reports failure and the whole session —
record, queue, cursor, extraction flag and detected-source label — is
unchanged. -/
theorem extract_non_dict_unchanged (json_loads : String → Option JsonValue)
    (content source_text : String) (det : Option String) (s : Session)
    (v : JsonValue)
    (hsrc : source_text.isEmpty = false)
    (hne : (pyStripWS content).isEmpty = false)
    (hparse : json_loads (pyStripWS content) = some v)
    (hnotdict : v.isObj = false) :
    extractHandler json_loads (.response content) source_text det s
      = (s, .failedError) := by
  unfold extractHandler call_openai_structurer
  simp only [hsrc, Bool.false_eq_true, if_false, hne, hparse]
  cases v with
  | obj fields => simp [JsonValue.isObj] at hnotdict
  | str t => rfl
  | num n => rfl
  | bool b => rfl
  | null => rfl
  | arr elems => rfl

/-- Witness for C10: the model answers `[1]`, a JSON array. -/
theorem extract_non_dict_unchanged_witness :
    extractHandler jlArray (.response "[1]") "Trainee Analyst, HM Treasury."
        (some "pasted text") sessionAwaitingDepartment
      = (sessionAwaitingDepartment, .failedError) :=
  extract_non_dict_unchanged jlArray "[1]" "Trainee Analyst, HM Treasury."
    (some "pasted text") sessionAwaitingDepartment
    (JsonValue.arr [JsonValue.num 1]) (by decide) (by decide) rfl rfl

/-! ### C7 — wizard entry after a failed extraction -/

/-- The session after an extraction attempt whose external call raised:
the fallback stores the unfilled schema, all ten fields pending. -/
def failedExtractionSession : Session :=
  (extractHandler jlNone .apiError "Trainee Analyst, HM Treasury, London."
    (some "pasted text") initialSession).1

/-- C7 (code evaluated at the failing input): after a totally failed
extraction the stored record is the unfilled schema and all ten fields are
pending, yet the wizard gate `pending and any(schema.values())` is false —
every value is empty — so tab 3 shows "No more obvious missing fields"
instead of entering awaiting-input on the queue's first field.  The ten
missing fields can therefore never be elicited one at a time, contrary to
the spec's guarantee (the claim is right; the gate's `any(schema.values())`
conjunct is the slip). -/
theorem failed_extraction_skips_wizard :
    failedExtractionSession.schema = TARGET_SCHEMA
    ∧ failedExtractionSession.pending_fields = keysOf TARGET_SCHEMA
    ∧ failedExtractionSession.extracted = true
    ∧ wizard_gate failedExtractionSession = false
    ∧ renderTab3 failedExtractionSession
        = (failedExtractionSession, Tab3View.noObviousMissing) :=
  ⟨rfl, rfl, rfl, rfl, rfl⟩

/-! ### C4 — empty submission through the wizard -/

/-- C4 (counterexample): in a session awaiting `department`, submitting an
empty value is accepted (`saved`), but the field does NOT stay in the
Missing-Field Queue — it is removed, an empty string is written, and the
wizard moves on to `location` rather than continuing on the same field. -/
theorem empty_submission_removes_field :
    (saveField sessionAwaitingDepartment "department" "").2 = SaveOutcome.saved
    ∧ "department" ∉ (saveField sessionAwaitingDepartment "department" "").1.pending_fields
    ∧ dictGet (saveField sessionAwaitingDepartment "department" "").1.schema "department"
        = some (JsonValue.str "")
    ∧ (renderTab3 (saveField sessionAwaitingDepartment "department" "").1).2
        = Tab3View.wizard "location" :=
  ⟨rfl, by decide, rfl, rfl⟩

/-- C4 (amended): an empty wizard submission is accepted without validation,
but it is treated as an answer, not as "still missing": the empty string is
written into the field, the field is removed from the Missing-Field Queue,
and the cursor is cleared, so the wizard proceeds to the next pending field
instead of re-eliciting the same one. -/
theorem empty_submission_accepted_as_answer (s : Session)
    (field user_input : String)
    (_hcur : s.current_field = some field)
    (hempty : (pyStripWS user_input).isEmpty = true) :
    saveField s field user_input
      = ({ s with schema := dictSet s.schema field (JsonValue.str "")
                  pending_fields := s.pending_fields.filter (fun f => f != field)
                  current_field := none }, SaveOutcome.saved)
    ∧ field ∉ (saveField s field user_input).1.pending_fields := by
  have hans : pyStripWS user_input = "" :=
    (String.isEmpty_iff (pyStripWS user_input)).mp hempty
  have hsave : saveField s field user_input
      = ({ s with schema := dictSet s.schema field (JsonValue.str "")
                  pending_fields := s.pending_fields.filter (fun f => f != field)
                  current_field := none }, SaveOutcome.saved) := by
    unfold saveField
    rw [hans]
    simp
    intro _ h
    exact absurd h (by decide)
  refine ⟨hsave, ?_⟩
  rw [hsave]
  simp [List.mem_filter]

/-- Witness for C4's amended theorem: an all-whitespace submission for the
awaited `department` field. -/
theorem empty_submission_accepted_as_answer_witness :
    saveField sessionAwaitingDepartment "department" "   "
      = ({ sessionAwaitingDepartment with
            schema := dictSet sessionAwaitingDepartment.schema "department"
              (JsonValue.str "")
            pending_fields := sessionAwaitingDepartment.pending_fields.filter
              (fun f => f != "department")
            current_field := none }, SaveOutcome.saved)
    ∧ "department" ∉ (saveField sessionAwaitingDepartment "department" "   ").1.pending_fields :=
  empty_submission_accepted_as_answer sessionAwaitingDepartment "department"
    "   " rfl (by decide)

/-! ### C5 — valid manual submission: effect and frame -/

/-- If the session has been extracted, its queue is `f :: rest`, its record
has a truthy value and no current field, the next tab-3 render enters the
wizard on `f`. -/
theorem renderTab3_wizard_of (s : Session) (f : String) (rest : List String)
    (hext : s.extracted = true) (hcur : s.current_field = none)
    (hp : s.pending_fields = f :: rest)
    (hany : s.schema.any (fun kv => pyTruthy kv.2) = true) :
    renderTab3 s = ({ s with current_field := some f }, Tab3View.wizard f) := by
  unfold renderTab3 wizard_gate
  rw [hext, hp, hany, hcur]
  simp

/-- C5: a valid non-empty submission for the cursor's field writes the
trimmed value into exactly that field, removes exactly that field from the
queue (all other fields' values and queue membership unchanged), clears the
cursor, and leaves the extraction flag and source label alone; on the next
render the wizard re-evaluates — a non-empty queue puts it in awaiting-input
on the new first element, an empty queue fails the wizard gate (the machine
is out of the elicitation loop). -/
theorem save_valid_field_frame (s : Session) (field user_input : String)
    (_hcur : s.current_field = some field)
    (hne : (pyStripWS user_input).isEmpty = false)
    (hval : field = "closing_date" → closing_date_ok (pyStripWS user_input) = true) :
    (saveField s field user_input).2 = SaveOutcome.saved
    ∧ dictGet (saveField s field user_input).1.schema field
        = some (JsonValue.str (pyStripWS user_input))
    ∧ (∀ k, k ≠ field →
        dictGet (saveField s field user_input).1.schema k = dictGet s.schema k)
    ∧ (saveField s field user_input).1.pending_fields
        = s.pending_fields.filter (fun f => f != field)
    ∧ field ∉ (saveField s field user_input).1.pending_fields
    ∧ (saveField s field user_input).1.current_field = none
    ∧ (saveField s field user_input).1.extracted = s.extracted
    ∧ (saveField s field user_input).1.detected_source = s.detected_source
    ∧ (∀ f rest, s.extracted = true →
        (saveField s field user_input).1.pending_fields = f :: rest →
        renderTab3 (saveField s field user_input).1
          = ({ (saveField s field user_input).1 with current_field := some f },
             Tab3View.wizard f))
    ∧ ((saveField s field user_input).1.pending_fields = [] →
        wizard_gate (saveField s field user_input).1 = false) := by
  have hsave : saveField s field user_input
      = ({ s with
            schema := dictSet s.schema field (JsonValue.str (pyStripWS user_input))
            pending_fields := s.pending_fields.filter (fun f => f != field)
            current_field := none }, SaveOutcome.saved) := by
    unfold saveField
    by_cases hcd : field = "closing_date"
    · subst hcd
      simp [hne, hval rfl]
    · simp [hcd]
  refine ⟨by rw [hsave], ?_, ?_, by rw [hsave], ?_, by rw [hsave],
          by rw [hsave], by rw [hsave], ?_, ?_⟩
  · rw [hsave]
    exact dictGet_dictSet_self s.schema field (JsonValue.str (pyStripWS user_input))
  · intro k hk
    rw [hsave]
    exact dictGet_dictSet_ne s.schema (JsonValue.str (pyStripWS user_input)) hk
  · rw [hsave]
    simp [List.mem_filter]
  · intro f rest hext hp
    rw [hsave] at hp ⊢
    have hget := dictGet_dictSet_self s.schema field
      (JsonValue.str (pyStripWS user_input))
    have hany : (dictSet s.schema field
        (JsonValue.str (pyStripWS user_input))).any (fun kv => pyTruthy kv.2)
        = true :=
      any_truthy_of_dictGet hget (by simp [pyTruthy, hne])
    exact renderTab3_wizard_of _ f rest hext rfl hp hany
  · intro hp
    rw [hsave] at hp ⊢
    have hp' : List.filter (fun f => f != field) s.pending_fields = [] := hp
    simp [wizard_gate, hp']

/-- Witness for C5: submitting `London` for the awaited `department` field
of a concrete session. -/
theorem save_valid_field_frame_witness :
    (saveField sessionAwaitingDepartment "department" " London ").2
        = SaveOutcome.saved
    ∧ dictGet (saveField sessionAwaitingDepartment "department" " London ").1.schema
        "department" = some (JsonValue.str "London")
    ∧ dictGet (saveField sessionAwaitingDepartment "department" " London ").1.schema
        "job_title" = dictGet sessionAwaitingDepartment.schema "job_title" := by
  have h := save_valid_field_frame sessionAwaitingDepartment "department"
    " London " rfl (by decide)
    (fun hc => absurd hc (by decide))
  have hlon : pyStripWS " London " = "London" := by decide
  refine ⟨h.1, ?_, h.2.2.1 "job_title" (by decide)⟩
  rw [← hlon]
  exact h.2.1

/-! ### C1 — the record key-set invariant -/

/-- C1 (counterexample): an extraction attempt whose response parses to the
JSON object `{"job_title": "Analyst"}` — a dict, so the handler stores it —
replaces the session record wholesale, leaving it with the single key
`job_title` instead of the Target Schema's ten keys. -/
theorem record_keys_extraction_cex :
    keysOf ((extractHandler jlPartial
        (.response "\x7b\"job_title\": \"Analyst\"\x7d")
        "Analyst role, closing soon." (some "pasted text")
        initialSession).1.schema)
      = ["job_title"]
    ∧ keysOf TARGET_SCHEMA ≠ ["job_title"] :=
  ⟨rfl, by decide⟩

/-- C1 (amended): the key set equals the Target Schema's for the initial
record, is preserved by every wizard single-field edit (whose field is an
existing key), and is restored to the Target Schema's keys by every bulk
edit and by every extraction attempt that falls back to the unfilled schema
(e.g. a failed external call); but an extraction whose response parses to a
JSON object is stored as-is, so the record's keys then equal the response
object's keys, which need not match the Target Schema's. -/
theorem record_keys_amended :
    keysOf initialSession.schema = keysOf TARGET_SCHEMA
    ∧ (∀ (s : Session) (field user_input : String),
        field ∈ keysOf s.schema →
        keysOf (saveField s field user_input).1.schema = keysOf s.schema)
    ∧ (∀ (s : Session) (fv : FormValues),
        keysOf (bulkEdit s fv).schema = keysOf TARGET_SCHEMA)
    ∧ (∀ (json_loads : String → Option JsonValue) (source_text : String)
        (det : Option String) (s : Session),
        keysOf (extractHandler json_loads .apiError source_text det s).1.schema
            = keysOf s.schema
        ∨ keysOf (extractHandler json_loads .apiError source_text det s).1.schema
            = keysOf TARGET_SCHEMA)
    ∧ (∀ (json_loads : String → Option JsonValue) (oc : ApiOutcome)
        (source_text : String) (det : Option String) (s : Session) (r : Record),
        call_openai_structurer json_loads oc TARGET_SCHEMA = .obj r →
        source_text.isEmpty = false →
        keysOf (extractHandler json_loads oc source_text det s).1.schema
          = keysOf r) := by
  refine ⟨rfl, ?_, ?_, ?_, ?_⟩
  · intro s field user_input hkey
    unfold saveField
    by_cases hcd : field = "closing_date" ∧ ¬(pyStripWS user_input).isEmpty
    · rw [if_pos hcd]
      by_cases hok : (!closing_date_ok (pyStripWS user_input)) = true
      · rw [if_pos hok]
      · rw [if_neg hok]
        exact dictSet_keysOf _ hkey
    · rw [if_neg hcd]
      exact dictSet_keysOf _ hkey
  · intro s fv
    rfl
  · intro json_loads source_text det s
    by_cases hsrc : source_text.isEmpty
    · left
      simp [extractHandler, hsrc]
    · right
      simp [extractHandler, call_openai_structurer, hsrc]
  · intro json_loads oc source_text det s r hcall hsrc
    unfold extractHandler
    simp [hsrc, hcall]

/-- Witness for C1's amended theorem at concrete inputs. -/
theorem record_keys_amended_witness :
    keysOf (saveField initialSession "job_title" "Analyst").1.schema
        = keysOf initialSession.schema
    ∧ keysOf (extractHandler jlNone .apiError "some advert" (some "URL")
        initialSession).1.schema = keysOf TARGET_SCHEMA :=
  ⟨record_keys_amended.2.1 initialSession "job_title" "Analyst" (by decide),
   record_keys_amended.2.2.2.2 jlNone .apiError "some advert" (some "URL")
     initialSession TARGET_SCHEMA rfl (by decide)⟩

/-! ### C8 — the bulk edit -/

/-- C8: a bulk-edit submission replaces the entire record with the submitted
values (target keys, in schema order), recomputes the queue from scratch as
exactly the trimmed-empty fields of the new record (the inlined
comprehension equals `get_missing_fields`), clears the cursor, leaves the
extraction flag and source label alone, and applies no per-field validation
— the closing-date value is stored verbatim whatever its shape. -/
theorem bulk_edit_spec (s : Session) (fv : FormValues) :
    (bulkEdit s fv).schema = updatedSchema fv
    ∧ (bulkEdit s fv).pending_fields = trimmedEmptyFields (updatedSchema fv)
    ∧ (bulkEdit s fv).pending_fields = get_missing_fields (updatedSchema fv)
    ∧ (bulkEdit s fv).current_field = none
    ∧ (bulkEdit s fv).extracted = s.extracted
    ∧ (bulkEdit s fv).detected_source = s.detected_source
    ∧ dictGet (bulkEdit s fv).schema "closing_date"
        = some (JsonValue.str fv.closing_date) := by
  have hall : ∀ kv ∈ updatedSchema fv,
      (!pyTruthy kv.2 || (pyStripWS (pyStr kv.2)).isEmpty)
        = (pyStripWS (pyStr kv.2)).isEmpty := by
    intro kv hkv
    simp only [updatedSchema, List.mem_cons, List.not_mem_nil, or_false] at hkv
    rcases hkv with rfl | rfl | rfl | rfl | rfl | rfl | rfl | rfl | rfl | rfl
    all_goals exact str_missing_eq _
  refine ⟨rfl, ?_, rfl, rfl, rfl, rfl, rfl⟩
  show ((updatedSchema fv).filter
      (fun kv => !pyTruthy kv.2 || (pyStripWS (pyStr kv.2)).isEmpty)).map Prod.fst
    = trimmedEmptyFields (updatedSchema fv)
  unfold trimmedEmptyFields
  exact congrArg (List.map Prod.fst) (List.filter_congr hall)
